import Mathlib

/-!
Shallow embedding of `parse_compareQUIC.py`, a batch tool that parses qperf
and iperf3 result files, buckets per-second throughput samples by network
interface and time-of-day section, and reports mean ± stddev per bucket.

Modelling conventions:
* A text file is modelled by the list of its lines (`List String`); a file
  that could not be opened is `none`.
* Python floats are idealised as exact rationals (inputs) and reals
  (the standard-deviation computation), so decimal values parsed from the
  input are exact.
* `datetime.strptime` with format `%Y%m%d_%H%M%S` is modelled for the
  canonical zero-padded form (exactly 4+2+2 digits, `_`, 2+2+2 digits) with
  the calendar-validity checks the `datetime` constructor performs.
-/

/- Batteries marks the `Rat` field operations `@[irreducible]`, which blocks
kernel evaluation of concrete rational arithmetic; restore the default so
that the embedded program can be run on concrete inputs by `decide`. -/
set_option allowUnsafeReducibility true in
attribute [semireducible] Rat.add Rat.mul Rat.sub Rat.div Rat.neg Rat.inv

/-- Decimal value of a digit character. -/
def digitVal (c : Char) : ℕ := c.toNat - 48

/-- Numeric value of a list of decimal digit characters (`int(...)`). -/
def digitsToNat (cs : List Char) : ℕ := cs.foldl (fun a c => 10 * a + digitVal c) 0

/-- Python's `str.split(sep)` for a one-character separator: split on every
occurrence; the empty string splits to `[""]`. -/
def splitOnChar (sep : Char) : List Char → List (List Char)
  | [] => [[]]
  | c :: rest =>
    if c = sep then [] :: splitOnChar sep rest
    else
      match splitOnChar sep rest with
      | [] => [[c]]
      | g :: gs => (c :: g) :: gs

/-- Python's `str.split('_')`. -/
def splitUnderscore (cs : List Char) : List (List Char) := splitOnChar '_' cs

/-- Structural worker for `replaceAll`; the fuel argument bounds the length
of the string still to scan, so the scan always has enough fuel. -/
def replaceAllAux (needle : List Char) : ℕ → List Char → List Char
  | _, [] => []
  | 0, s => s
  | fuel + 1, c :: rest =>
    if needle ≠ [] ∧ needle.isPrefixOf (c :: rest) then
      replaceAllAux needle fuel ((c :: rest).drop needle.length)
    else
      c :: replaceAllAux needle fuel rest

/-- Python's `str.replace(needle, "")`: remove every (leftmost-first,
non-overlapping) occurrence of `needle`. -/
def replaceAll (s needle : List Char) : List Char := replaceAllAux needle s.length s

/-- Bool test: does `needle` occur as a contiguous sublist of `hay`? -/
def hasSubstr (hay needle : List Char) : Bool :=
  needle.isPrefixOf hay ||
    match hay with
    | [] => false
    | _ :: t => hasSubstr t needle

/-- Python's `needle in haystack` substring test. -/
def strContains (hay needle : String) : Bool := hasSubstr hay.toList needle.toList

/-- A wall-clock timestamp as produced by `datetime.strptime` (date and
time-of-day fields; the program only ever reads hour/minute/second). -/
structure Time where
  year : ℕ
  month : ℕ
  day : ℕ
  hour : ℕ
  minute : ℕ
  second : ℕ
deriving DecidableEq, Repr

def isLeap (y : ℕ) : Bool := (y % 4 = 0 && y % 100 ≠ 0) || y % 400 = 0

def daysInMonth (y m : ℕ) : ℕ :=
  if m = 2 then (if isLeap y then 29 else 28)
  else if m ∈ [4, 6, 9, 11] then 30 else 31

/-- `datetime.strptime(s, '%Y%m%d_%H%M%S')` on the canonical zero-padded
form: 8 digits, `_`, 6 digits, with `datetime`'s range validation; any other
shape raises `ValueError`, modelled as `none`. -/
def parseYmdHms (cs : List Char) : Option Time :=
  match cs with
  | [y1, y2, y3, y4, m1, m2, d1, d2, u, h1, h2, n1, n2, s1, s2] =>
    if [y1, y2, y3, y4, m1, m2, d1, d2, h1, h2, n1, n2, s1, s2].all Char.isDigit ∧ u = '_' then
      let y := digitsToNat [y1, y2, y3, y4]
      let mo := digitsToNat [m1, m2]
      let da := digitsToNat [d1, d2]
      let h := digitsToNat [h1, h2]
      let mi := digitsToNat [n1, n2]
      let se := digitsToNat [s1, s2]
      if 1 ≤ y ∧ 1 ≤ mo ∧ mo ≤ 12 ∧ 1 ≤ da ∧ da ≤ daysInMonth y mo ∧
          h ≤ 23 ∧ mi ≤ 59 ∧ se ≤ 59 then
        some ⟨y, mo, da, h, mi, se⟩
      else none
    else none
  | _ => none

/-- The filename-timestamp extraction both parsers share:
`filename.split('_')[-2] + '_' + filename.split('_')[-1].replace(ext, '')`,
fed to `strptime('%Y%m%d_%H%M%S')`.  Fewer than two `_`-separated tokens
raises `IndexError`; both that and a `ValueError` from `strptime` surface as
`none` (their effect on each parser is identical — see the parsers). -/
def extractTs (filename : String) (ext : String) : Option Time :=
  match (splitUnderscore filename.toList).reverse with
  | last :: prev :: _ => parseYmdHms (prev ++ '_' :: replaceAll last ext.toList)
  | _ => none

/-- The four fixed time sections, `(label, start, end)` in seconds since
midnight, exactly as in the source. -/
def TIME_SECTIONS : List (String × ℚ × ℚ) :=
  [("0h-5h59", 0, 5 * 3600 + 59 * 60),
   ("6h-11h59", 6 * 3600, 11 * 3600 + 59 * 60),
   ("12h-17h59", 12 * 3600, 17 * 3600 + 59 * 60),
   ("18h-23h59", 18 * 3600, 23 * 3600 + 59 * 60)]

/-- `get_time_section`: linear scan of `TIME_SECTIONS`, first interval with
`start <= x <= end` wins; no match returns `None`. -/
def get_time_section (x : ℚ) : Option String :=
  TIME_SECTIONS.findSome? (fun s => if s.2.1 ≤ x ∧ x ≤ s.2.2 then some s.1 else none)

example : get_time_section 21599 = none := by decide
example : get_time_section 21600 = some "6h-11h59" := by decide
example : extractTs "wlan1_iperf3_throughput_20250605_120000.json" ".json" =
    some ⟨2025, 6, 5, 12, 0, 0⟩ := by decide

/-! ## Parser A: `parse_qperf_file` (line-oriented text) -/

/-- If `pre` is a prefix of `s`, return the remainder. -/
def stripPref (pre s : List Char) : Option (List Char) :=
  if pre.isPrefixOf s then some (s.drop pre.length) else none

/-- One attempted match of the pattern `second (\d+): ([\d.]+) mbit/s`
anchored at the start of `s`, returning the two captured groups.  The
character classes `\d` and `[\d.]` exclude the characters that must follow
them (`:` and a space), so greedy maximal munch is equivalent to the
backtracking semantics of `re`. -/
def qperfMatchAt (s : List Char) : Option (List Char × List Char) :=
  match stripPref "second ".toList s with
  | none => none
  | some r1 =>
    let ds := r1.takeWhile Char.isDigit
    if ds.isEmpty then none
    else
      match stripPref ": ".toList (r1.drop ds.length) with
      | none => none
      | some r2 =>
        let ts := r2.takeWhile (fun c => c.isDigit || c = '.')
        if ts.isEmpty then none
        else
          match stripPref " mbit/s".toList (r2.drop ts.length) with
          | none => none
          | some _ => some (ds, ts)

/-- `re.search`: try the pattern at each position, leftmost match wins. -/
def qperfSearch : List Char → Option (List Char × List Char)
  | [] => none
  | c :: rest =>
    match qperfMatchAt (c :: rest) with
    | some r => some r
    | none => qperfSearch rest

/-- Python's `float(...)` on a string drawn from the class `[\d.]+` (the
only shape the regex capture can produce): valid iff it has at most one dot
and at least one digit; exact decimal value. -/
def pyFloat (cs : List Char) : Option ℚ :=
  if (cs.all fun c => c.isDigit || c = '.') ∧ cs.count '.' ≤ 1 ∧ cs.any Char.isDigit then
    let ip := cs.takeWhile Char.isDigit
    match cs.drop ip.length with
    | [] => some ((digitsToNat ip : ℕ) : ℚ)
    | _ :: fp =>
      some (((digitsToNat ip : ℕ) : ℚ) + ((digitsToNat fp : ℕ) : ℚ) / ((10 ^ fp.length : ℕ) : ℚ))
  else none

/-- The qperf line loop: scan each line with the pattern, accumulate
`(int(second), float(mbit))` pairs; a captured throughput token that
`float` rejects raises `ValueError`, which aborts the whole file (`none`). -/
def qperfSamples : List String → Option (List (ℚ × ℚ))
  | [] => some []
  | line :: rest =>
    match qperfSearch line.toList with
    | none => qperfSamples rest
    | some (ds, ts) =>
      match pyFloat ts with
      | none => none
      | some q =>
        match qperfSamples rest with
        | none => none
        | some l => some (((digitsToNat ds : ℕ), q) :: l)

/-- `parse_qperf_file`: timestamp from the filename, samples from the
line scan; any failure (unreadable file modelled as `none` content,
malformed filename timestamp, malformed float) is caught by the
surrounding `except` and yields the sentinel `(None, [])`. -/
def parse_qperf_file (filename : String) (content : Option (List String)) :
    Option Time × List (ℚ × ℚ) :=
  match extractTs filename ".txt" with
  | none => (none, [])
  | some t =>
    match content with
    | none => (none, [])
    | some lines =>
      match qperfSamples lines with
      | none => (none, [])
      | some ss => (some t, ss)

example : parse_qperf_file "wlan0_qperf_throughput_rtt_20250605_000000.txt"
    (some ["noise", "second 0: 50.0 mbit/s", "second 5: 60.5 mbit/s"]) =
    (some ⟨2025, 6, 5, 0, 0, 0⟩, [(0, 50), (5, 121/2)]) := by decide

/-! ## Parser B: `parse_iperf_file` (JSON) -/

/-- JSON values (numbers idealised as exact rationals). -/
inductive Json where
  | null
  | bool (b : Bool)
  | num (q : ℚ)
  | str (s : String)
  | arr (elems : List Json)
  | obj (fields : List (String × Json))

/-- The Python exception classes the iperf parser distinguishes: the inner
`except (KeyError, ValueError)` catches the first two but not `TypeError`. -/
inductive PyErr where
  | keyError
  | valueError
  | typeError
deriving DecidableEq

/-- Python `value[key]` for a string key: object lookup (missing key raises
`KeyError`); any non-object raises `TypeError`. -/
def getItem : Json → String → Except PyErr Json
  | .obj fields, k =>
    match fields.lookup k with
    | some v => .ok v
    | none => .error .keyError
  | _, _ => .error .typeError

/-- `data['start']['timestamp']['time']`. -/
def timeField (data : Json) : Except PyErr Json :=
  match getItem data "start" with
  | .error e => .error e
  | .ok a =>
    match getItem a "timestamp" with
    | .error e => .error e
    | .ok b => getItem b "time"

def DAY_ABBRS : List (List Char) :=
  ["Mon", "Tue", "Wed", "Thu", "Fri", "Sat", "Sun"].map String.toList

def MONTH_ABBRS : List (List Char) :=
  ["Jan", "Feb", "Mar", "Apr", "May", "Jun",
   "Jul", "Aug", "Sep", "Oct", "Nov", "Dec"].map String.toList

/-- `datetime.strptime(s, '%a, %d %b %Y %H:%M:%S GMT')` on the canonical
zero-padded form.  Its outcome is not load-bearing: the parser uses the
result only to choose between two paths that both end at the filename
timestamp (proved below), so only success-versus-`ValueError` matters. -/
def parseGmt (s : String) : Option Time :=
  match s.toList with
  | w1 :: w2 :: w3 :: ',' :: ' ' :: d1 :: d2 :: ' ' :: mo1 :: mo2 :: mo3 :: ' ' ::
      y1 :: y2 :: y3 :: y4 :: ' ' :: h1 :: h2 :: ':' :: n1 :: n2 :: ':' :: s1 :: s2 ::
      ' ' :: 'G' :: 'M' :: 'T' :: [] =>
    if DAY_ABBRS.contains [w1, w2, w3] ∧
        [d1, d2, y1, y2, y3, y4, h1, h2, n1, n2, s1, s2].all Char.isDigit then
      match MONTH_ABBRS.findIdx? (fun m => m == [mo1, mo2, mo3]) with
      | none => none
      | some idx =>
        let y := digitsToNat [y1, y2, y3, y4]
        let mo := idx + 1
        let da := digitsToNat [d1, d2]
        let h := digitsToNat [h1, h2]
        let mi := digitsToNat [n1, n2]
        let se := digitsToNat [s1, s2]
        if 1 ≤ y ∧ 1 ≤ da ∧ da ≤ daysInMonth y mo ∧ h ≤ 23 ∧ mi ≤ 59 ∧ se ≤ 59 then
          some ⟨y, mo, da, h, mi, se⟩
        else none
    else none
  | _ => none

/-- `datetime.strptime(x, '%a, %d %b %Y %H:%M:%S GMT')` as applied to a
JSON value: a non-string argument raises `TypeError`, a string that does
not match the format raises `ValueError`. -/
def parseGmtJson : Json → Except PyErr Time
  | .str s =>
    match parseGmt s with
    | some t => .ok t
    | none => .error .valueError
  | _ => .error .typeError

/-- Python iteration over a JSON value: lists yield elements, strings yield
one-character strings, objects yield their keys; other values raise
`TypeError` (`'...' object is not iterable`). -/
def iterElems : Json → Option (List Json)
  | .arr l => some l
  | .str s => some (s.toList.map (fun c => .str (String.mk [c])))
  | .obj fields => some (fields.map (fun kv => .str kv.1))
  | _ => none

/-- The interval loop body: `interval['sum']['start']` and
`interval['sum']['bits_per_second'] / 1e6`.  A non-numeric
`bits_per_second` raises `TypeError` at the division; a non-numeric `start`
would only fault later, in `process_files`' arithmetic, but is rejected
here since the embedded sample type is numeric. -/
def extractSamples : List Json → Except PyErr (List (ℚ × ℚ))
  | [] => .ok []
  | j :: rest =>
    match getItem j "sum" with
    | .error e => .error e
    | .ok sm =>
      match getItem sm "start" with
      | .error e => .error e
      | .ok st =>
        match getItem sm "bits_per_second" with
        | .error e => .error e
        | .ok bp =>
          match st, bp with
          | .num a, .num b =>
            match extractSamples rest with
            | .error e => .error e
            | .ok l => .ok ((a, b / 1000000) :: l)
          | _, _ => .error .typeError

/-- `for interval in data['intervals']: ...`. -/
def intervalsOf (data : Json) : Except PyErr (List (ℚ × ℚ)) :=
  match getItem data "intervals" with
  | .error e => .error e
  | .ok iv =>
    match iterElems iv with
    | some elems => extractSamples elems
    | none => .error .typeError

/-- The body of the inner `try`: look up `start.timestamp.time`, parse it
in GMT format (result unused), then parse and return the filename
timestamp.  A filename whose timestamp cannot be parsed raises
`ValueError` (a filename with fewer than two `_`-tokens raises
`IndexError` instead, which the inner `except` does not catch; both routes
end at the same sentinel, so they are merged into `valueError` here). -/
def iperfInner (filename : String) (data : Json) : Except PyErr Time :=
  match timeField data with
  | .error e => .error e
  | .ok tf =>
    match parseGmtJson tf with
    | .error e => .error e
    | .ok _ =>
      match extractTs filename ".json" with
      | some ft => .ok ft
      | none => .error .valueError

/-- The inner `try`/`except (KeyError, ValueError)`: on those two errors
fall back to the filename timestamp; a `TypeError` propagates. -/
def iperfStart (filename : String) (data : Json) : Except PyErr Time :=
  match iperfInner filename data with
  | .ok t => .ok t
  | .error .keyError | .error .valueError =>
    match extractTs filename ".json" with
    | some ft => .ok ft
    | none => .error .valueError
  | .error .typeError => .error .typeError

/-- `parse_iperf_file`.  `content`: `none` models an unreadable file,
`some none` a file `json.load` rejects, `some (some data)` parsed JSON.
Any failure escaping to the outer handler yields the sentinel
`(None, [])`. -/
def parse_iperf_file (filename : String) (content : Option (Option Json)) :
    Option Time × List (ℚ × ℚ) :=
  match content with
  | none => (none, [])
  | some none => (none, [])
  | some (some data) =>
    match iperfStart filename data with
    | .error _ => (none, [])
    | .ok st =>
      match intervalsOf data with
      | .error _ => (none, [])
      | .ok samples => (some st, samples)

/-! ## Aggregator: `process_files` -/

/-- The bucket structure: interface name × time-section label to the list
of accumulated throughput values.  The source's nested dict with fixed
keys `wlan0`/`wlan1` and the four section labels is modelled as a total
map that is empty off those keys. -/
def Buckets : Type := String → String → List ℚ

def emptyBuckets : Buckets := fun _ _ => []

/-- `data[interface][section].append(throughput)`. -/
def addSample (d : Buckets) (iface sec : String) (v : ℚ) : Buckets :=
  fun i s => if i = iface ∧ s = sec then d i s ++ [v] else d i s

/-- `'wlan0' if 'wlan0' in filename else 'wlan1' if 'wlan1' in filename
else None`. -/
def interfaceOf (filename : String) : Option String :=
  if strContains filename "wlan0" then some "wlan0"
  else if strContains filename "wlan1" then some "wlan1"
  else none

/-- `start_time.hour * 3600 + start_time.minute * 60 + start_time.second
+ second` — note: not wrapped modulo 86400. -/
def secondsSinceMidnight (t : Time) (off : ℚ) : ℚ :=
  (t.hour : ℚ) * 3600 + (t.minute : ℚ) * 60 + (t.second : ℚ) + off

/-- Per-sample body: seconds since midnight, section lookup, append on
match, silently drop otherwise. -/
def sampleStep (t : Time) (iface : String) (d : Buckets) (sample : ℚ × ℚ) : Buckets :=
  match get_time_section (secondsSinceMidnight t sample.1) with
  | some sec => addSample d iface sec sample.2
  | none => d

/-- Per-file body: filter by pattern substring, parse, skip files whose
parse failed (`start_time is None`), determine the interface (checking
`wlan0` before `wlan1`, skipping files matching neither), then fold the
samples. -/
def fileStep (parse : String → Option Time × List (ℚ × ℚ)) (file_pattern : String)
    (d : Buckets) (filename : String) : Buckets :=
  if strContains filename file_pattern then
    match parse filename with
    | (none, _) => d
    | (some t, samples) =>
      match interfaceOf filename with
      | none => d
      | some iface => samples.foldl (sampleStep t iface) d
  else d

/-- `process_files`: the directory listing and the parser are passed in
(`os.path.join`/`os.path.basename` cancel, so the parser receives the
filename). -/
def process_files (listing : List String)
    (parse : String → Option Time × List (ℚ × ℚ)) (file_pattern : String) : Buckets :=
  listing.foldl (fileStep parse file_pattern) emptyBuckets

example : process_files ["wlan0_qperf_throughput_rtt_20250605_000000.txt"]
    (fun fn => parse_qperf_file fn (some ["second 0: 50.0 mbit/s", "second 5: 60.0 mbit/s"]))
    "qperf_throughput_rtt" "wlan0" "0h-5h59" = [50, 60] := by decide

/-! ## Statistics reducer: `calc_stats`

Python floats are idealised as exact numbers: the mean is computed in `ℚ`,
`statistics.stdev` (which computes the exact sample variance and then takes
a square root) lands in `ℝ`, forcing the definitions that touch it to be
noncomputable. -/

/-- `sum(values) / len(values)`. -/
def meanOf (values : List ℚ) : ℚ := values.sum / (values.length : ℚ)

/-- The unbiased sample variance `statistics.stdev` takes the root of:
`Σ (x - mean)² / (n - 1)` (exact, as `statistics` computes it). -/
def sampleVariance (values : List ℚ) : ℚ :=
  ((values.map (fun x => (x - meanOf values) ^ 2)).sum) / ((values.length : ℚ) - 1)

/-- `statistics.stdev(values)`. -/
noncomputable def stdev (values : List ℚ) : ℝ := Real.sqrt ((sampleVariance values : ℚ) : ℝ)

/-- `statistics.stdev(values) if len(values) > 1 else 0.0`. -/
noncomputable def stddevVal (values : List ℚ) : ℝ :=
  if values.length > 1 then stdev values else 0

/-- Python's `round` ties-to-even applied to `100 * x`, i.e. `round(x, 2)`
up to the factor 100 (rational case: the mean). -/
def roundHalfEvenQ (q : ℚ) : ℤ :=
  let f := ⌊q⌋
  let r := q - (f : ℚ)
  if r < 1 / 2 then f
  else if 1 / 2 < r then f + 1
  else if f % 2 = 0 then f else f + 1

/-- Python's `round` ties-to-even applied to `100 * x` (real case: the
standard deviation). -/
noncomputable def roundHalfEvenR (x : ℝ) : ℤ :=
  let f := ⌊x⌋
  if x - (f : ℝ) < 1 / 2 then f
  else if 1 / 2 < x - (f : ℝ) then f + 1
  else if f % 2 = 0 then f else f + 1

/-- Decimal digits of a natural number (structural worker; the fuel bounds
the number of digits so it never runs out). -/
def natDigitsAux : ℕ → ℕ → List Char
  | 0, _ => []
  | fuel + 1, n =>
    if n < 10 then [Nat.digitChar n]
    else natDigitsAux fuel (n / 10) ++ [Nat.digitChar (n % 10)]

def natDigits (n : ℕ) : List Char := natDigitsAux (n + 1) n

/-- Python's `f"{v}"` (shortest `repr`) for the float `v = z / 100` that
`round(x, 2)` produced: integer part, a dot, then the fractional digits
with trailing zeros dropped but at least one digit kept. -/
def fmtCenti (z : ℤ) : String :=
  let sign := if z < 0 then "-" else ""
  let n := z.natAbs
  let ip := n / 100
  let fr := n % 100
  let frStr :=
    if fr = 0 then "0"
    else if fr % 10 = 0 then String.mk (natDigits (fr / 10))
    else (if fr < 10 then "0" else "") ++ String.mk (natDigits fr)
  sign ++ String.mk (natDigits ip) ++ "." ++ frStr

/-- `calc_stats`: `"0.0 ± 0.0"` on an empty list, otherwise
`f"{round(mean, 2)} ± {round(stddev, 2)}"`. -/
noncomputable def calc_stats (values : List ℚ) : String :=
  if values = [] then "0.0 ± 0.0"
  else
    fmtCenti (roundHalfEvenQ (100 * meanOf values)) ++ " ± " ++
      fmtCenti (roundHalfEvenR (100 * stddevVal values))

example : fmtCenti 5000 = "50.0" := by decide
example : fmtCenti 3333 = "33.33" := by decide
example : fmtCenti (-5) = "-0.05" := by decide
example : fmtCenti 130 = "1.3" := by decide

/-! ## Reporters: `print_table` and `save_to_csv` -/

/-- The four `calc_stats` cell strings of one table/CSV row, in the fixed
column order `wlan0 qperf, wlan1 qperf, wlan0 iperf3, wlan1 iperf3`. -/
noncomputable def wifiCells (qperf_data iperf_data : Buckets) (sec : String) : List String :=
  [calc_stats (qperf_data "wlan0" sec), calc_stats (qperf_data "wlan1" sec),
   calc_stats (iperf_data "wlan0" sec), calc_stats (iperf_data "wlan1" sec)]

/-- The body of `print_table`: one row per time section in declaration
order, pairing the section label with its four formatted cell strings
(the fixed-width centering is presentation-only padding around exactly
these strings). -/
noncomputable def print_table_rows (qperf_data iperf_data : Buckets) :
    List (String × List String) :=
  TIME_SECTIONS.map (fun s => (s.1, wifiCells qperf_data iperf_data s.1))

/-- The lines `save_to_csv` writes: the fixed header, then
`f"{section},{w0_q},{w1_q},{w0_i},{w1_i}"` per section in declaration
order. -/
noncomputable def save_to_csv_lines (qperf_data iperf_data : Buckets) : List String :=
  "Time Section,wlan0 qperf (Mbps),wlan1 qperf (Mbps),wlan0 iperf3 (Mbps),wlan1 iperf3 (Mbps)" ::
    TIME_SECTIONS.map (fun s =>
      s.1 ++ "," ++ calc_stats (qperf_data "wlan0" s.1) ++ "," ++
        calc_stats (qperf_data "wlan1" s.1) ++ "," ++
        calc_stats (iperf_data "wlan0" s.1) ++ "," ++
        calc_stats (iperf_data "wlan1" s.1))

/-- Parsing one line of the written CSV back: split on commas (no field the
program writes contains a comma or quoting). -/
def parseCsvLine (s : String) : List String :=
  (splitOnChar ',' s.toList).map (fun cs => String.mk cs)

/-- Modelled from the spec: the fixed two-decimal rendering `{x:.2f}` of
the value `z/100`, to compare against what the code actually prints. -/
def specFmt2f (z : ℤ) : String :=
  let sign := if z < 0 then "-" else ""
  let n := z.natAbs
  let fr := n % 100
  sign ++ String.mk (natDigits (n / 100)) ++ "." ++
    (if fr < 10 then "0" else "") ++ String.mk (natDigits fr)

/-! ## Shared lemmas about `get_time_section` -/

lemma findSome?_section_mem {l : List (String × ℚ × ℚ)} {x : ℚ} {sec : String}
    (h : l.findSome? (fun s => if s.2.1 ≤ x ∧ x ≤ s.2.2 then some s.1 else none) = some sec) :
    ∃ a b : ℚ, (sec, a, b) ∈ l ∧ a ≤ x ∧ x ≤ b := by
  induction l with
  | nil => simp [List.findSome?] at h
  | cons e rest ih =>
    rw [List.findSome?] at h
    split at h
    · next b heq =>
      split at heq
      · next hc =>
        obtain rfl : e.1 = b := by simpa using heq
        obtain rfl : e.1 = sec := by simpa using h
        exact ⟨e.2.1, e.2.2, List.mem_cons_self _ _, hc.1, hc.2⟩
      · exact absurd heq (by simp)
    · next heq =>
      obtain ⟨a, b, hm, h1, h2⟩ := ih h
      exact ⟨a, b, List.mem_cons_of_mem _ hm, h1, h2⟩

lemma get_time_section_some {x : ℚ} {sec : String} (h : get_time_section x = some sec) :
    ∃ a b : ℚ, (sec, a, b) ∈ TIME_SECTIONS ∧ a ≤ x ∧ x ≤ b := by
  unfold get_time_section at h
  exact findSome?_section_mem h

lemma time_sections_bounds {sec : String} {a b : ℚ} (h : (sec, a, b) ∈ TIME_SECTIONS) :
    0 ≤ a ∧ b ≤ 86340 := by
  simp only [TIME_SECTIONS, List.mem_cons, List.not_mem_nil, or_false,
    Prod.mk.injEq] at h
  rcases h with ⟨_, rfl, rfl⟩ | ⟨_, rfl, rfl⟩ | ⟨_, rfl, rfl⟩ | ⟨_, rfl, rfl⟩ <;>
    constructor <;> norm_num

/-! ## Claims -/

/-- C1 (counterexample): the spec's boundary spot-checks fail at 21599 and
86399 — each section's upper bound is `h*3600 + 59*60` (21540, 86340, ...),
i.e. the minute `:59` is only included for its first second, so 21599 and
86399 fall in a gap and match no section. -/
theorem get_time_section_spec_boundaries_cex :
    get_time_section 21599 ≠ some "0h-5h59" ∧ get_time_section 21599 = none ∧
    get_time_section 86399 ≠ some "18h-23h59" ∧ get_time_section 86399 = none := by
  decide

/-- C1 (amended): `get_time_section` returns `"0h-5h59"` up to 21540 but
`None` at 21541–21599 (and analogously `None` at 86341–86399), returns
`"6h-11h59"` at 21600, and returns `None` for every negative value and
every value ≥ 86400. -/
theorem get_time_section_boundaries :
    get_time_section 21540 = some "0h-5h59" ∧
    get_time_section 21599 = none ∧
    get_time_section 21600 = some "6h-11h59" ∧
    get_time_section 86340 = some "18h-23h59" ∧
    get_time_section 86399 = none ∧
    ∀ x : ℚ, x < 0 ∨ 86400 ≤ x → get_time_section x = none := by
  refine ⟨by decide, by decide, by decide, by decide, by decide, ?_⟩
  intro x hx
  cases h : get_time_section x with
  | none => rfl
  | some sec =>
    exfalso
    obtain ⟨a, b, hm, hax, hxb⟩ := get_time_section_some h
    obtain ⟨ha, hb⟩ := time_sections_bounds hm
    rcases hx with h' | h'
    · linarith
    · linarith

/-- C1 witness: the out-of-range clause applied at −1 and 86400. -/
theorem get_time_section_boundaries_witness :
    get_time_section (-1) = none ∧ get_time_section 86400 = none :=
  ⟨get_time_section_boundaries.2.2.2.2.2 (-1) (Or.inl (by norm_num)),
   get_time_section_boundaries.2.2.2.2.2 86400 (Or.inr (by norm_num))⟩

/-- C2: the seconds-since-midnight value is not wrapped modulo 86400: a run
starting at 23:59:50 with a sample at offset 20 computes 86410, which
matches no time section, so the sample is silently dropped and every bucket
stays empty. -/
theorem overflow_sample_dropped :
    secondsSinceMidnight ⟨2025, 6, 5, 23, 59, 50⟩ 20 = 86410 ∧
    get_time_section 86410 = none ∧
    process_files ["wlan0_qperf_throughput_rtt_20250605_235950.txt"]
      (fun _ => (some ⟨2025, 6, 5, 23, 59, 50⟩, [(20, 42)]))
      "qperf_throughput_rtt" = emptyBuckets := by
  refine ⟨by decide, by decide, ?_⟩
  rfl

/-- C7: `calc_stats` on the empty list returns exactly `"0.0 ± 0.0"`. -/
theorem calc_stats_empty_literal : calc_stats [] = "0.0 ± 0.0" := by
  simp [calc_stats]

/-- C10: a line matching `second (\d+): ([\d.]+) mbit/s` whose captured
throughput token (here `1.2.3`) is not a valid float downgrades the whole
file to the sentinel, discarding the previously matched samples; without
the offending line the same file parses to its samples. -/
theorem qperf_bad_float_discards_file :
    qperfSearch "second 1: 1.2.3 mbit/s".toList = some ("1".toList, "1.2.3".toList) ∧
    pyFloat "1.2.3".toList = none ∧
    parse_qperf_file "wlan0_qperf_throughput_rtt_20250605_193815.txt"
      (some ["second 0: 50.0 mbit/s", "second 1: 1.2.3 mbit/s", "second 2: 70.0 mbit/s"]) =
      (none, []) ∧
    parse_qperf_file "wlan0_qperf_throughput_rtt_20250605_193815.txt"
      (some ["second 0: 50.0 mbit/s", "second 2: 70.0 mbit/s"]) =
      (some ⟨2025, 6, 5, 19, 38, 15⟩, [(0, 50), (2, 70)]) := by
  decide

/-- The single-file scenario of C8. -/
def c8Listing : List String := ["wlan1_iperf3_throughput_20250605_120000.json"]

def c8Json : Json :=
  .obj [("intervals", .arr [.obj [("sum",
    .obj [("start", .num 0), ("bits_per_second", .num 100000000)])]])]

def c8Parse : String → Option Time × List (ℚ × ℚ) :=
  fun fn => parse_iperf_file fn (some (some c8Json))

/-- C8: one structured file `wlan1_iperf3_throughput_20250605_120000.json`
with a single interval `{sum: {start: 0, bits_per_second: 100000000}}`
yields bucket `(wlan1, "12h-17h59") = [100.0]` and leaves every other
bucket empty. -/
theorem iperf_single_interval_buckets :
    process_files c8Listing c8Parse "iperf3_throughput" "wlan1" "12h-17h59" = [100] ∧
    ∀ iface sec : String, ¬(iface = "wlan1" ∧ sec = "12h-17h59") →
      process_files c8Listing c8Parse "iperf3_throughput" iface sec = [] := by
  constructor
  · decide
  · intro iface sec h
    have hred : process_files c8Listing c8Parse "iperf3_throughput" =
        addSample emptyBuckets "wlan1" "12h-17h59" 100 := by rfl
    rw [hred]
    simp only [addSample, emptyBuckets]
    rw [if_neg h]

/-- C8 witness: a different bucket is empty. -/
theorem iperf_single_interval_buckets_witness :
    process_files c8Listing c8Parse "iperf3_throughput" "wlan0" "0h-5h59" = [] :=
  iperf_single_interval_buckets.2 "wlan0" "0h-5h59" (by decide)

/-! ## Shared lemmas about the iperf start-time resolution -/

/-- A successful inner `try` can only have returned the filename
timestamp. -/
lemma iperfInner_ok {fn : String} {d : Json} {t : Time}
    (h : iperfInner fn d = .ok t) : extractTs fn ".json" = some t := by
  unfold iperfInner at h
  cases htf : timeField d with
  | error e => simp [htf] at h
  | ok tf =>
    simp only [htf] at h
    cases hg : parseGmtJson tf with
    | error e => simp [hg] at h
    | ok g =>
      simp only [hg] at h
      cases hx : extractTs fn ".json" with
      | none => simp [hx] at h
      | some ft =>
        simp only [hx] at h
        obtain rfl : ft = t := by simpa using h
        rfl

/-- When the filename timestamp cannot be parsed, the start-time
resolution fails no matter what the JSON content holds. -/
lemma iperfStart_error_of_extract_none {fn : String} (d : Json)
    (h : extractTs fn ".json" = none) : ∃ e, iperfStart fn d = .error e := by
  unfold iperfStart
  cases hin : iperfInner fn d with
  | ok t => exact absurd (iperfInner_ok hin) (by simp [h])
  | error e =>
    cases e with
    | keyError => exact ⟨.valueError, by simp [h]⟩
    | valueError => exact ⟨.valueError, by simp [h]⟩
    | typeError => exact ⟨.typeError, rfl⟩

/-- A parse failure makes the per-file step of `process_files` a no-op. -/
lemma fileStep_none {parse : String → Option Time × List (ℚ × ℚ)} {pat : String}
    {d : Buckets} {fn : String} (h : (parse fn).1 = none) :
    fileStep parse pat d fn = d := by
  unfold fileStep
  by_cases hc : strContains fn pat = true
  · rw [if_pos hc]
    rcases hp : parse fn with ⟨st, ss⟩
    rw [hp] at h
    obtain rfl : st = none := h
    simp [hp]
  · rw [if_neg hc]

/-- C4: both parsers are fail-soft.  Each conjunct covers one failure mode:
(1) the qperf parser returns the sentinel or a successful pair — never a
partial result; (2) an unreadable file; (3) a malformed filename timestamp;
(4) a malformed numeric field in the line scan; (5)–(8) the same for the
iperf parser (unreadable file, rejected JSON, malformed filename timestamp,
malformed interval structure); (9) a file whose parse failed contributes
nothing and processing continues with the remaining files. -/
theorem parsers_fail_soft :
    (∀ fn c, parse_qperf_file fn c = (none, []) ∨
      ∃ t ss, parse_qperf_file fn c = (some t, ss)) ∧
    (∀ fn, parse_qperf_file fn none = (none, [])) ∧
    (∀ fn c, extractTs fn ".txt" = none → parse_qperf_file fn c = (none, [])) ∧
    (∀ fn lines, qperfSamples lines = none → parse_qperf_file fn (some lines) = (none, [])) ∧
    (∀ fn c, parse_iperf_file fn c = (none, []) ∨
      ∃ t ss, parse_iperf_file fn c = (some t, ss)) ∧
    (∀ fn, parse_iperf_file fn none = (none, []) ∧ parse_iperf_file fn (some none) = (none, [])) ∧
    (∀ fn d, extractTs fn ".json" = none → parse_iperf_file fn (some (some d)) = (none, [])) ∧
    (∀ fn d e, intervalsOf d = .error e → parse_iperf_file fn (some (some d)) = (none, [])) ∧
    (∀ pre post parse pat fn, (parse fn).1 = none →
      process_files (pre ++ fn :: post) parse pat = process_files (pre ++ post) parse pat) := by
  refine ⟨?_, ?_, ?_, ?_, ?_, ?_, ?_, ?_, ?_⟩
  · intro fn c
    rcases hx : extractTs fn ".txt" with _ | t
    · exact Or.inl (by simp [parse_qperf_file, hx])
    · rcases c with _ | lines
      · exact Or.inl (by simp [parse_qperf_file, hx])
      · rcases hq : qperfSamples lines with _ | ss
        · exact Or.inl (by simp [parse_qperf_file, hx, hq])
        · exact Or.inr ⟨t, ss, by simp [parse_qperf_file, hx, hq]⟩
  · intro fn
    rcases hx : extractTs fn ".txt" with _ | t <;> simp [parse_qperf_file, hx]
  · intro fn c h
    simp [parse_qperf_file, h]
  · intro fn lines h
    rcases hx : extractTs fn ".txt" with _ | t <;> simp [parse_qperf_file, hx, h]
  · intro fn c
    rcases c with _ | (_ | d)
    · exact Or.inl rfl
    · exact Or.inl rfl
    · rcases hs : iperfStart fn d with e | st
      · exact Or.inl (by simp [parse_iperf_file, hs])
      · rcases hi : intervalsOf d with e | ss
        · exact Or.inl (by simp [parse_iperf_file, hs, hi])
        · exact Or.inr ⟨st, ss, by simp [parse_iperf_file, hs, hi]⟩
  · intro fn
    exact ⟨rfl, rfl⟩
  · intro fn d h
    obtain ⟨e, he⟩ := iperfStart_error_of_extract_none d h
    simp [parse_iperf_file, he]
  · intro fn d e h
    rcases hs : iperfStart fn d with e' | st <;> simp [parse_iperf_file, hs, h]
  · intro pre post parse pat fn h
    unfold process_files
    rw [List.foldl_append, List.foldl_append, List.foldl_cons, fileStep_none h]

/-- C4 witness: each fail-soft clause applied at a concrete input —
a filename with no timestamp tokens, a file with a malformed float, an
iperf file with no usable filename timestamp, an iperf file whose
`intervals` is not iterable, and a listing where the failing file drops
out. -/
theorem parsers_fail_soft_witness :
    parse_qperf_file "badname.txt" (some ["second 1: 5.0 mbit/s"]) = (none, []) ∧
    parse_qperf_file "wlan0_qperf_throughput_rtt_20250605_120000.txt"
      (some ["second 1: 1.2 mbit/s", "second 2: .. mbit/s"]) = (none, []) ∧
    parse_iperf_file "badname.json" (some (some (Json.obj []))) = (none, []) ∧
    parse_iperf_file "wlan0_iperf3_throughput_20250605_120000.json"
      (some (some (Json.obj [("intervals", Json.null)]))) = (none, []) ∧
    process_files (["wlan0_qperf_throughput_rtt_20250605_120000.txt"] ++ "bad.txt" :: [])
      (fun _ => (none, [])) "" =
      process_files (["wlan0_qperf_throughput_rtt_20250605_120000.txt"] ++ [])
      (fun _ => (none, [])) "" :=
  ⟨parsers_fail_soft.2.2.1 "badname.txt" (some ["second 1: 5.0 mbit/s"]) (by decide),
   parsers_fail_soft.2.2.2.1 "wlan0_qperf_throughput_rtt_20250605_120000.txt"
     ["second 1: 1.2 mbit/s", "second 2: .. mbit/s"] (by decide),
   parsers_fail_soft.2.2.2.2.2.2.1 "badname.json" (Json.obj []) (by decide),
   parsers_fail_soft.2.2.2.2.2.2.2.1 "wlan0_iperf3_throughput_20250605_120000.json"
     (Json.obj [("intervals", Json.null)]) PyErr.typeError rfl,
   parsers_fail_soft.2.2.2.2.2.2.2.2 ["wlan0_qperf_throughput_rtt_20250605_120000.txt"] []
     (fun _ => (none, [])) "" "bad.txt" rfl⟩

/-! ## Provenance of bucketed samples (C5) -/

lemma mem_addSample {d : Buckets} {iface sec i s : String} {v w : ℚ}
    (h : w ∈ addSample d iface sec v i s) :
    w ∈ d i s ∨ (i = iface ∧ s = sec ∧ w = v) := by
  unfold addSample at h
  by_cases hc : i = iface ∧ s = sec
  · rw [if_pos hc] at h
    rcases List.mem_append.mp h with h' | h'
    · exact Or.inl h'
    · exact Or.inr ⟨hc.1, hc.2, by simpa using h'⟩
  · rw [if_neg hc] at h
    exact Or.inl h

lemma mem_sampleStep_foldl {t : Time} {iface : String} {w : ℚ} {i s : String} :
    ∀ (samples : List (ℚ × ℚ)) (d : Buckets),
      w ∈ (samples.foldl (sampleStep t iface) d) i s →
      w ∈ d i s ∨ ∃ off, (off, w) ∈ samples ∧ i = iface ∧
        get_time_section (secondsSinceMidnight t off) = some s := by
  intro samples
  induction samples with
  | nil => intro d h; exact Or.inl (by simpa using h)
  | cons a rest ih =>
    intro d h
    rw [List.foldl_cons] at h
    rcases ih _ h with h' | ⟨off, hmem, hif, hsec⟩
    · unfold sampleStep at h'
      rcases hg : get_time_section (secondsSinceMidnight t a.1) with _ | sec'
      · rw [hg] at h'
        exact Or.inl h'
      · rw [hg] at h'
        rcases mem_addSample h' with h'' | ⟨rfl, rfl, rfl⟩
        · exact Or.inl h''
        · exact Or.inr ⟨a.1, List.mem_cons_self _ _, rfl, hg⟩
    · exact Or.inr ⟨off, List.mem_cons_of_mem _ hmem, hif, hsec⟩

lemma mem_fileStep {parse : String → Option Time × List (ℚ × ℚ)} {pat : String}
    {d : Buckets} {fn i s : String} {w : ℚ}
    (h : w ∈ fileStep parse pat d fn i s) :
    w ∈ d i s ∨ ∃ t samples, parse fn = (some t, samples) ∧ interfaceOf fn = some i ∧
      ∃ off, (off, w) ∈ samples ∧ get_time_section (secondsSinceMidnight t off) = some s := by
  unfold fileStep at h
  by_cases hc : strContains fn pat = true
  · rw [if_pos hc] at h
    rcases hp : parse fn with ⟨st, ss⟩
    rw [hp] at h
    rcases st with _ | t
    · exact Or.inl h
    · rcases hif : interfaceOf fn with _ | iface
      · simp only [hif] at h
        exact Or.inl h
      · simp only [hif] at h
        rcases mem_sampleStep_foldl ss d h with h' | ⟨off, hm, rfl, hsec⟩
        · exact Or.inl h'
        · exact Or.inr ⟨t, ss, rfl, rfl, off, hm, hsec⟩
  · rw [if_neg hc] at h
    exact Or.inl h

lemma mem_process_files {listing : List String}
    {parse : String → Option Time × List (ℚ × ℚ)} {pat i s : String} {w : ℚ}
    (h : w ∈ process_files listing parse pat i s) :
    ∃ fn, fn ∈ listing ∧ ∃ t samples, parse fn = (some t, samples) ∧
      interfaceOf fn = some i ∧ ∃ off, (off, w) ∈ samples ∧
        get_time_section (secondsSinceMidnight t off) = some s := by
  unfold process_files at h
  suffices H : ∀ (l : List String) (d : Buckets),
      w ∈ (l.foldl (fileStep parse pat) d) i s →
      w ∈ d i s ∨ ∃ fn, fn ∈ l ∧ ∃ t samples, parse fn = (some t, samples) ∧
        interfaceOf fn = some i ∧ ∃ off, (off, w) ∈ samples ∧
          get_time_section (secondsSinceMidnight t off) = some s by
    rcases H listing emptyBuckets h with h' | h''
    · exact absurd h' (by simp [emptyBuckets])
    · exact h''
  intro l
  induction l with
  | nil => intro d h'; exact Or.inl (by simpa using h')
  | cons fn rest ih =>
    intro d h'
    rw [List.foldl_cons] at h'
    rcases ih _ h' with h'' | ⟨fn', hmem, pay⟩
    · rcases mem_fileStep h'' with h3 | pay
      · exact Or.inl h3
      · exact Or.inr ⟨fn, List.mem_cons_self _ _, pay⟩
    · exact Or.inr ⟨fn', List.mem_cons_of_mem _ hmem, pay⟩

/-- Seconds-since-midnight wrapped to one day (the spec's reading). -/
def wrapDay (x : ℚ) : ℚ := x - 86400 * ⌊x / 86400⌋

lemma wrapDay_eq_self {x : ℚ} (h0 : 0 ≤ x) (h1 : x < 86400) : wrapDay x = x := by
  unfold wrapDay
  have hf : ⌊x / 86400⌋ = 0 := by
    rw [Int.floor_eq_zero_iff]
    refine ⟨by positivity, ?_⟩
    rw [div_lt_one (by norm_num)]
    exact h1
  rw [hf]
  ring

/-- C5: every throughput value in a bucket `(iface, sec)` comes from a
sample of a successfully parsed run whose seconds-since-midnight value
(which, being bucketed, is already within one day, so wrapping is the
identity on it) lies inside that section's interval; failed parses
contribute nothing since a parsed pair is required. -/
theorem bucket_sample_provenance :
    ∀ listing parse pat iface sec (v : ℚ),
      v ∈ process_files listing parse pat iface sec →
      ∃ fn, fn ∈ listing ∧ ∃ t samples, parse fn = (some t, samples) ∧
        interfaceOf fn = some iface ∧
        ∃ off, (off, v) ∈ samples ∧
          get_time_section (secondsSinceMidnight t off) = some sec ∧
          ∃ a b, (sec, a, b) ∈ TIME_SECTIONS ∧
            a ≤ wrapDay (secondsSinceMidnight t off) ∧
            wrapDay (secondsSinceMidnight t off) ≤ b := by
  intro listing parse pat iface sec v h
  obtain ⟨fn, hfn, t, samples, hp, hif, off, hoff, hsec⟩ := mem_process_files h
  obtain ⟨a, b, hm, hax, hxb⟩ := get_time_section_some hsec
  obtain ⟨ha, hb⟩ := time_sections_bounds hm
  have hwrap : wrapDay (secondsSinceMidnight t off) = secondsSinceMidnight t off :=
    wrapDay_eq_self (le_trans ha hax) (lt_of_le_of_lt hxb (by linarith))
  exact ⟨fn, hfn, t, samples, hp, hif, off, hoff, hsec, a, b, hm,
    by rw [hwrap]; exact hax, by rw [hwrap]; exact hxb⟩

/-- C5 witness: a one-file scenario with 77 landing in
`(wlan0, "12h-17h59")`. -/
theorem bucket_sample_provenance_witness :
    ((77 : ℚ) ∈ process_files ["wlan0_x"]
        (fun _ => (some ⟨2025, 6, 5, 12, 0, 0⟩, [(0, 77)])) "" "wlan0" "12h-17h59") ∧
    ∃ fn, fn ∈ ["wlan0_x"] ∧ ∃ (t : Time) (samples : List (ℚ × ℚ)),
      (some (⟨2025, 6, 5, 12, 0, 0⟩ : Time), ([(0, 77)] : List (ℚ × ℚ))) = (some t, samples) ∧
      interfaceOf fn = some "wlan0" ∧
      ∃ off, (off, (77 : ℚ)) ∈ samples ∧
        get_time_section (secondsSinceMidnight t off) = some "12h-17h59" ∧
        ∃ a b, ("12h-17h59", a, b) ∈ TIME_SECTIONS ∧
          a ≤ wrapDay (secondsSinceMidnight t off) ∧
          wrapDay (secondsSinceMidnight t off) ≤ b :=
  ⟨by decide,
   bucket_sample_provenance ["wlan0_x"]
     (fun _ => (some ⟨2025, 6, 5, 12, 0, 0⟩, [(0, 77)])) "" "wlan0" "12h-17h59" 77
     (by decide)⟩

/-! ## Start-time resolution of the iperf parser (C6) -/

/-- C6 (counterexample): a structured file whose filename timestamp is
valid (noon) but whose present `start.timestamp.time` field holds a number
raises `TypeError` at `strptime`; the inner `except (KeyError, ValueError)`
does not catch it, so the whole file downgrades to the sentinel instead of
returning the filename-embedded timestamp. -/
theorem iperf_nonstring_time_cex :
    parse_iperf_file "wlan1_iperf3_throughput_20250605_120000.json"
      (some (some (Json.obj
        [("start", Json.obj [("timestamp", Json.obj [("time", Json.num 123)])]),
         ("intervals", Json.arr [])]))) = (none, []) ∧
    extractTs "wlan1_iperf3_throughput_20250605_120000.json" ".json" =
      some ⟨2025, 6, 5, 12, 0, 0⟩ ∧
    ((none : Option Time), ([] : List (ℚ × ℚ))).1 ≠ some ⟨2025, 6, 5, 12, 0, 0⟩ := by
  decide

/-- C6 (amended): for a file with a valid filename timestamp and
well-formed intervals, the parser returns the filename timestamp whenever
the `start.timestamp.time` lookup yields a string (valid, malformed, or
carrying a different time) or fails with a missing key; but when the
lookup raises `TypeError` (a non-object along the path) or the field's
value is not a string (`strptime` raises `TypeError`), the inner handler
does not catch it and the file downgrades to the sentinel. -/
theorem iperf_filename_time_priority :
    ∀ fn d t ss, extractTs fn ".json" = some t → intervalsOf d = .ok ss →
      ((((∃ s, timeField d = .ok (.str s)) ∨ timeField d = .error .keyError) →
        parse_iperf_file fn (some (some d)) = (some t, ss)) ∧
      ((timeField d = .error .typeError ∨
          ∃ j, timeField d = .ok j ∧ parseGmtJson j = .error .typeError) →
        parse_iperf_file fn (some (some d)) = (none, []))) := by
  intro fn d t ss hext hiv
  constructor
  · intro h
    have hstart : iperfStart fn d = .ok t := by
      rcases h with ⟨s, hs⟩ | hk
      · unfold iperfStart iperfInner
        rcases hg : parseGmt s with _ | g
        · simp [hs, parseGmtJson, hg, hext]
        · simp [hs, parseGmtJson, hg, hext]
      · unfold iperfStart iperfInner
        simp [hk, hext]
    simp [parse_iperf_file, hstart, hiv]
  · intro h
    have hstart : iperfStart fn d = .error .typeError := by
      rcases h with hk | ⟨j, hj, hg⟩
      · unfold iperfStart iperfInner
        simp [hk]
      · unfold iperfStart iperfInner
        simp [hj, hg]
    simp [parse_iperf_file, hstart]

/-- The C6 witness scenario: same filename, one JSON with a string time
field carrying a different time and one with a numeric time field. -/
def c6Fn : String := "wlan1_iperf3_throughput_20250605_120000.json"

def c6Good : Json :=
  .obj [("start", .obj [("timestamp",
    .obj [("time", .str "Thu, 05 Jun 2025 03:55:48 GMT")])]), ("intervals", .arr [])]

def c6Bad : Json :=
  .obj [("start", .obj [("timestamp", .obj [("time", .num 5)])]), ("intervals", .arr [])]

/-! ## Formatting of `calc_stats` (C3) -/

lemma roundHalfEvenQ_intCast (z : ℤ) : roundHalfEvenQ (z : ℚ) = z := by
  simp [roundHalfEvenQ, Int.floor_intCast]

lemma roundHalfEvenR_intCast (z : ℤ) : roundHalfEvenR (z : ℝ) = z := by
  simp [roundHalfEvenR, Int.floor_intCast]

/-- C3 (counterexample): `calc_stats([50.0])` prints `"50.0 ± 0.0"` —
`f"{round(x, 2)}"` uses the float's shortest repr — while the claimed
`"{mean:.2f} ± {stddev:.2f}"` format would print `"50.00 ± 0.00"`. -/
theorem calc_stats_two_decimal_cex :
    calc_stats [50] = "50.0 ± 0.0" ∧
    specFmt2f (roundHalfEvenQ (100 * meanOf [50])) ++ " ± " ++ specFmt2f 0 =
      "50.00 ± 0.00" ∧
    "50.0 ± 0.0" ≠ "50.00 ± 0.00" := by
  have hm : (100 : ℚ) * meanOf [50] = ((5000 : ℤ) : ℚ) := by
    norm_num [meanOf]
  refine ⟨?_, ?_, by decide⟩
  · have hne : ([50] : List ℚ) ≠ [] := by simp
    have hs : stddevVal [50] = 0 := by
      norm_num [stddevVal]
    simp only [calc_stats, if_neg hne, hm, roundHalfEvenQ_intCast, hs]
    rw [show (100 : ℝ) * 0 = ((0 : ℤ) : ℝ) by norm_num, roundHalfEvenR_intCast]
    decide
  · rw [hm, roundHalfEvenQ_intCast]
    decide

/-- C3 (amended): for every non-empty list, `calc_stats` returns
`f"{round(mean, 2)} ± {round(stddev, 2)}"` rendered with Python's
shortest float repr (minimal decimal digits, not fixed two), where mean is
the arithmetic mean and stddev is the unbiased (n−1) sample standard
deviation for n ≥ 2 and 0.0 for a single element. -/
theorem calc_stats_nonempty_format :
    ∀ vs : List ℚ, vs ≠ [] →
      calc_stats vs =
        fmtCenti (roundHalfEvenQ (100 * (vs.sum / (vs.length : ℚ)))) ++ " ± " ++
        fmtCenti (roundHalfEvenR (100 * (if 2 ≤ vs.length then
          Real.sqrt ((((vs.map (fun x => (x - vs.sum / (vs.length : ℚ)) ^ 2)).sum /
            ((vs.length : ℚ) - 1) : ℚ) : ℝ)) else 0))) := by
  intro vs h
  unfold calc_stats meanOf stddevVal stdev sampleVariance meanOf
  rw [if_neg h]
  by_cases hn : 1 < vs.length
  · rw [if_pos hn, if_pos (by omega : 2 ≤ vs.length)]
  · rw [if_neg hn, if_neg (by omega : ¬ 2 ≤ vs.length)]

/-- C3 witness: the amended format statement instantiated at `[60.0]`. -/
theorem calc_stats_nonempty_format_witness :
    (([60] : List ℚ) ≠ []) ∧
    calc_stats [60] =
      fmtCenti (roundHalfEvenQ (100 * (([60] : List ℚ).sum /
        ((([60] : List ℚ).length : ℕ) : ℚ)))) ++ " ± " ++
      fmtCenti (roundHalfEvenR (100 * (if 2 ≤ ([60] : List ℚ).length then
        Real.sqrt ((((([60] : List ℚ).map
            (fun x => (x - ([60] : List ℚ).sum / ((([60] : List ℚ).length : ℕ) : ℚ)) ^ 2)).sum /
          (((([60] : List ℚ).length : ℕ) : ℚ) - 1) : ℚ) : ℝ)) else 0))) :=
  ⟨by decide, calc_stats_nonempty_format [60] (by decide)⟩

/-! ## CSV round-trip (C9) -/

lemma strToList_append (a b : String) : (a ++ b).toList = a.toList ++ b.toList :=
  String.data_append a b

lemma strMk_toList (s : String) : String.mk s.toList = s := rfl

lemma splitOnChar_no_sep {sep : Char} {a : List Char} (h : sep ∉ a) :
    splitOnChar sep a = [a] := by
  induction a with
  | nil => rfl
  | cons c rest ih =>
    rw [List.mem_cons, not_or] at h
    unfold splitOnChar
    rw [if_neg (fun he => h.1 he.symm), ih h.2]

lemma splitOnChar_append {sep : Char} {a : List Char} (b : List Char) (h : sep ∉ a) :
    splitOnChar sep (a ++ sep :: b) = a :: splitOnChar sep b := by
  induction a with
  | nil => simp [splitOnChar]
  | cons c rest ih =>
    rw [List.mem_cons, not_or] at h
    rw [List.cons_append, splitOnChar, if_neg (fun he => h.1 he.symm), ih h.2]

lemma digitChar_isDigit {n : ℕ} (h : n < 10) : (Nat.digitChar n).isDigit = true := by
  interval_cases n <;> decide

lemma natDigitsAux_digits : ∀ fuel n : ℕ, ∀ c : Char,
    c ∈ natDigitsAux fuel n → c.isDigit = true := by
  intro fuel
  induction fuel with
  | zero => intro n c h; simp [natDigitsAux] at h
  | succ f ih =>
    intro n c h
    unfold natDigitsAux at h
    by_cases hn : n < 10
    · rw [if_pos hn] at h
      simp at h
      subst h
      exact digitChar_isDigit hn
    · rw [if_neg hn] at h
      rcases List.mem_append.mp h with h' | h'
      · exact ih _ _ h'
      · simp at h'
        subst h'
        exact digitChar_isDigit (Nat.mod_lt _ (by norm_num))

lemma natDigits_digits {n : ℕ} {c : Char} (h : c ∈ natDigits n) : c.isDigit = true :=
  natDigitsAux_digits _ _ _ h

lemma comma_not_mem_frStr (fr : ℕ) :
    ',' ∉ (if fr = 0 then "0"
      else if fr % 10 = 0 then String.mk (natDigits (fr / 10))
      else (if fr < 10 then "0" else "") ++ String.mk (natDigits fr)).toList := by
  intro h
  split_ifs at h with h0 h10 hlt
  · exact absurd h (by decide)
  · exact absurd (natDigits_digits h) (by decide)
  · rw [strToList_append] at h
    rcases List.mem_append.mp h with h' | h'
    · exact absurd h' (by decide)
    · exact absurd (natDigits_digits h') (by decide)
  · rw [strToList_append] at h
    rcases List.mem_append.mp h with h' | h'
    · exact absurd h' (by decide)
    · exact absurd (natDigits_digits h') (by decide)

lemma comma_not_mem_fmtCenti (z : ℤ) : ',' ∉ (fmtCenti z).toList := by
  intro h
  simp only [fmtCenti] at h
  rw [strToList_append, strToList_append, strToList_append] at h
  rcases List.mem_append.mp h with h1 | hfr
  · rcases List.mem_append.mp h1 with h2 | hdot
    · rcases List.mem_append.mp h2 with hsign | hdig
      · split_ifs at hsign
        · exact absurd hsign (by decide)
        · exact absurd hsign (by decide)
      · exact absurd (natDigits_digits hdig) (by decide)
    · exact absurd hdot (by decide)
  · exact comma_not_mem_frStr _ hfr

lemma comma_not_mem_calc_stats (vs : List ℚ) : ',' ∉ (calc_stats vs).toList := by
  unfold calc_stats
  split_ifs with h
  · decide
  · intro hmem
    rw [strToList_append, strToList_append] at hmem
    rcases List.mem_append.mp hmem with h1 | h1
    · rcases List.mem_append.mp h1 with h2 | h2
      · exact comma_not_mem_fmtCenti _ h2
      · exact absurd h2 (by decide)
    · exact comma_not_mem_fmtCenti _ h1

lemma parseCsvLine_five {s0 c1 c2 c3 c4 : String}
    (h0 : ',' ∉ s0.toList) (h1 : ',' ∉ c1.toList) (h2 : ',' ∉ c2.toList)
    (h3 : ',' ∉ c3.toList) (h4 : ',' ∉ c4.toList) :
    parseCsvLine (s0 ++ "," ++ c1 ++ "," ++ c2 ++ "," ++ c3 ++ "," ++ c4) =
      [s0, c1, c2, c3, c4] := by
  unfold parseCsvLine
  have hx : (s0 ++ "," ++ c1 ++ "," ++ c2 ++ "," ++ c3 ++ "," ++ c4).toList =
      s0.toList ++ ',' :: (c1.toList ++ ',' :: (c2.toList ++ ',' ::
        (c3.toList ++ ',' :: c4.toList))) := by
    simp [strToList_append, show (",".toList) = [','] from rfl, List.append_assoc]
  rw [hx, splitOnChar_append _ h0, splitOnChar_append _ h1, splitOnChar_append _ h2,
    splitOnChar_append _ h3, splitOnChar_no_sep h4]
  simp [strMk_toList]

/-- C9: dropping the CSV header and splitting each written line on commas
recovers, row for row in time-section order, the section label followed by
exactly the four formatted mean±stddev strings the table printed for that
section. -/
theorem csv_table_roundtrip :
    ∀ qperf_data iperf_data : Buckets,
      ((save_to_csv_lines qperf_data iperf_data).drop 1).map parseCsvLine =
        (print_table_rows qperf_data iperf_data).map (fun row => row.1 :: row.2) := by
  intro qd ipd
  simp only [save_to_csv_lines, print_table_rows, wifiCells, TIME_SECTIONS,
    List.map_cons, List.map_nil, List.drop_succ_cons, List.drop_zero]
  rw [parseCsvLine_five (by decide) (comma_not_mem_calc_stats _) (comma_not_mem_calc_stats _)
      (comma_not_mem_calc_stats _) (comma_not_mem_calc_stats _),
    parseCsvLine_five (by decide) (comma_not_mem_calc_stats _) (comma_not_mem_calc_stats _)
      (comma_not_mem_calc_stats _) (comma_not_mem_calc_stats _),
    parseCsvLine_five (by decide) (comma_not_mem_calc_stats _) (comma_not_mem_calc_stats _)
      (comma_not_mem_calc_stats _) (comma_not_mem_calc_stats _),
    parseCsvLine_five (by decide) (comma_not_mem_calc_stats _) (comma_not_mem_calc_stats _)
      (comma_not_mem_calc_stats _) (comma_not_mem_calc_stats _)]

/-- C6 witness: the filename timestamp (noon) wins over a valid embedded
GMT string carrying 03:55:48, and a numeric time field sinks the file. -/
theorem iperf_filename_time_priority_witness :
    parse_iperf_file c6Fn (some (some c6Good)) = (some ⟨2025, 6, 5, 12, 0, 0⟩, []) ∧
    parse_iperf_file c6Fn (some (some c6Bad)) = (none, []) :=
  ⟨(iperf_filename_time_priority c6Fn c6Good ⟨2025, 6, 5, 12, 0, 0⟩ [] (by decide) rfl).1
     (Or.inl ⟨"Thu, 05 Jun 2025 03:55:48 GMT", rfl⟩),
   (iperf_filename_time_priority c6Fn c6Bad ⟨2025, 6, 5, 12, 0, 0⟩ [] (by decide) rfl).2
     (Or.inr ⟨Json.num 5, rfl, rfl⟩)⟩
